import Mathlib

/-!
# Verification of the dothtml-backend authentication core

Shallow embedding of the passwordless-authentication endpoints of
`dotshell-org/dothtml-backend` (Rust, actix-web + sqlx/PostgreSQL) and proofs
about them.

The embedded code is `src/auth.rs` (the handlers `register`, `login`,
`authenticate`) together with the database operations they call, from
`src/models.rs` (`contains_identifier`, `is_identifier_registered`,
`link_public_key`, `create_public_keys_table`'s schema) and the `base64`
standard encoding used by `login`.

The PostgreSQL database is modelled as an explicit state value (`DbState`):
the rows of the `accounts`, `public_keys` and challenge tables.  Queries that
can only fail on infrastructure problems (connection loss) are modelled as
total functions of the state; `get_public_key`, whose `RowNotFound` failure is
semantic, returns `Except`.  The random 32-byte nonce drawn by `login` is
passed in as an explicit parameter `nonce : Fin 32 → Fin 256`, modelling the
`[u8; 32]` value produced by `rng.random()`.
-/

/-- `sqlx::Error`, restricted to the distinctions `auth.rs` makes:
`Error::RowNotFound` versus every other error. -/
inductive SqlxError where
  | rowNotFound
  | other
deriving DecidableEq, Repr

/-- A row of the `public_keys` table
(`create_public_keys_table`, src/models.rs:110-123).  The schema is
`identifier TEXT NOT NULL, public_key TEXT NOT NULL, device_name TEXT`
with no uniqueness constraint beyond the synthetic `id` primary key;
`device_name` is nullable. -/
structure PKRow where
  identifier : String
  public_key : String
  device_name : Option String
deriving DecidableEq, Repr

/-- The database state visible to the authentication endpoints:
the `accounts` table (src/models.rs:97-108, `identifier TEXT NOT NULL UNIQUE`),
the `public_keys` table, and the per-user challenge storage written by
`store_challenge_for_user`. -/
structure DbState where
  accounts : List String
  public_keys : List PKRow
  challenges : List (String × String)
deriving DecidableEq, Repr

/-- `Database::contains_identifier` (src/models.rs:199-210):
`SELECT EXISTS (SELECT 1 FROM accounts WHERE identifier = $1)`. -/
def contains_identifier (st : DbState) (identifier : String) : Bool :=
  st.accounts.contains identifier

/-- `Database::is_identifier_registered` (src/models.rs:212-223):
`SELECT EXISTS (SELECT 1 FROM public_keys WHERE identifier = $1)`. -/
def is_identifier_registered (st : DbState) (identifier : String) : Bool :=
  st.public_keys.any (fun r => r.identifier == identifier)

/-- `Database::link_public_key` (src/models.rs:225-237):
`INSERT INTO public_keys (identifier, public_key, device_name) VALUES ($1, $2, $3)`.
The definition in `src/models.rs` takes a `device_name`; the call site in
`src/auth.rs:58` passes only `(&identifier, &public_key)` (the
`RegisterRequest` struct has no `device_name` field), so `register` below
supplies `none`. -/
def link_public_key (st : DbState) (identifier public_key : String)
    (device_name : Option String) : DbState :=
  { st with public_keys := st.public_keys ++ [⟨identifier, public_key, device_name⟩] }

/-- Modelled from the spec: `Database::get_public_key` is called from
`src/auth.rs` (lines 92 and 134) but is defined nowhere under `src/`.
Following the spec's storage collaborator (`listDeviceKeys` /
`hasRegisteredKey`) and the handlers' treatment of its `Err(Error::RowNotFound)`
arm as "Identifier not found.", it selects the identifier's rows from the
`public_keys` table and returns the first stored public key, failing with
`RowNotFound` when the identifier has no bound key. -/
def get_public_key (st : DbState) (identifier : String) : Except SqlxError String :=
  match st.public_keys.filter (fun r => r.identifier == identifier) with
  | [] => .error .rowNotFound
  | r :: _ => .ok r.public_key

/-- Modelled from the spec: `Database::store_challenge_for_user` is called
from `src/auth.rs:99` but is defined nowhere under `src/`.  Following the
spec's Challenge Store `issue` ("Invalidates any prior active challenge for
the identifier before creating the new one"), it replaces any stored
challenge for the identifier with the new one. -/
def store_challenge_for_user (st : DbState) (identifier challenge : String) : DbState :=
  { st with
    challenges :=
      st.challenges.filter (fun c => c.1 != identifier) ++ [(identifier, challenge)] }

/-! ## Base64 (standard alphabet, RFC 4648, with padding)

`login` encodes the nonce with `base64::engine::general_purpose::STANDARD`
(src/auth.rs:97). -/

/-- The standard base64 alphabet, `A-Za-z0-9+/`. -/
def base64Alphabet : List Char :=
  "ABCDEFGHIJKLMNOPQRSTUVWXYZabcdefghijklmnopqrstuvwxyz0123456789+/".toList

/-- The character for a 6-bit group. -/
def base64Char (n : Nat) : Char :=
  base64Alphabet.getD n '='

/-- Encode a byte sequence three bytes (four output characters) at a time,
padding a final group of one or two bytes with `=`. -/
def base64Chunks : List Nat → List Char
  | b1 :: b2 :: b3 :: rest =>
      let n := b1 * 65536 + b2 * 256 + b3
      base64Char (n / 262144) :: base64Char (n / 4096 % 64) ::
        base64Char (n / 64 % 64) :: base64Char (n % 64) :: base64Chunks rest
  | [b1, b2] =>
      let n := b1 * 1024 + b2 * 4
      [base64Char (n / 4096), base64Char (n / 64 % 64), base64Char (n % 64), '=']
  | [b1] =>
      let n := b1 * 16
      [base64Char (n / 64), base64Char (n % 64), '=', '=']
  | [] => []

/-- `general_purpose::STANDARD.encode`. -/
def base64Encode (bytes : List Nat) : String :=
  String.mk (base64Chunks bytes)

/-- The byte list of the `[u8; 32]` array drawn by `rng.random()`. -/
def nonceBytes (nonce : Fin 32 → Fin 256) : List Nat :=
  (List.finRange 32).map (fun i => (nonce i).val)

/-! ## HTTP responses

`auth.rs` builds `HttpResponse`s with a plain-text body, except for `login`'s
success which is `HttpResponse::Ok().json(json!({ "challenge": challenge }))`. -/

/-- The responses the three handlers produce. -/
inductive Resp where
  /-- `HttpResponse::Ok().body(s)` -/
  | ok (body : String)
  /-- `HttpResponse::Ok().json(json!({ "challenge": c }))` -/
  | okChallenge (challenge : String)
  /-- `HttpResponse::Conflict().body(s)` -/
  | conflict (body : String)
  /-- `HttpResponse::NotFound().body(s)` -/
  | notFound (body : String)
  /-- `HttpResponse::InternalServerError().body(s)` -/
  | internalServerError (body : String)
deriving DecidableEq, Repr

/-! ## The handlers (src/auth.rs) -/

/-- `register` (src/auth.rs:43-73).  The `Err(_)` arms of the two database
queries (`InternalServerError`) correspond to connection failures, which the
state model does not produce. -/
def register (st : DbState) (identifier public_key : String) : Resp × DbState :=
  if contains_identifier st identifier then
    if is_identifier_registered st identifier then
      (.conflict "Identifier is already registered with a public key.", st)
    else
      (.ok "New public key registered successfully.",
        link_public_key st identifier public_key none)
  else
    (.notFound
      "Identifier not found. If you detect an issue, please contact your administrator.",
      st)

/-- `login` (src/auth.rs:86-110).  `nonce` is the `[u8; 32]` drawn by
`rng.random()`; on success the handler stores and returns its base64
encoding. -/
def login (st : DbState) (identifier : String) (nonce : Fin 32 → Fin 256) :
    Resp × DbState :=
  match get_public_key st identifier with
  | .ok _public_key =>
      let challenge := base64Encode (nonceBytes nonce)
      (.okChallenge challenge, store_challenge_for_user st identifier challenge)
  | .error .rowNotFound => (.notFound "Identifier not found.", st)
  | .error .other => (.internalServerError "Database error occurred", st)

/-- `authenticate` (src/auth.rs:126-146).  The handler reads
`signed_challenge` from the request but never uses it: when the public-key
lookup succeeds it answers `[FAKE] Authentication successful.`
unconditionally. -/
def authenticate (st : DbState) (identifier signed_challenge : String) :
    Resp × DbState :=
  match get_public_key st identifier with
  | .ok _public_key => (.ok "[FAKE] Authentication successful.", st)
  | .error .rowNotFound => (.notFound "Identifier not found.", st)
  | .error .other => (.internalServerError "Database error occurred", st)

/-! ## Sequences of public operations -/

/-- One call to a public endpoint, with its request payload (and, for
`login`, the nonce the RNG produces during the call). -/
inductive Op where
  | register (identifier public_key : String)
  | login (identifier : String) (nonce : Fin 32 → Fin 256)
  | authenticate (identifier signed_challenge : String)

/-- The state after one endpoint call. -/
def applyOp (st : DbState) : Op → DbState
  | .register identifier public_key => (register st identifier public_key).2
  | .login identifier nonce => (login st identifier nonce).2
  | .authenticate identifier signed_challenge =>
      (authenticate st identifier signed_challenge).2

/-- The state after a sequence of endpoint calls. -/
def runOps (st : DbState) : List Op → DbState
  | [] => st
  | op :: ops => runOps (applyOp st op) ops

/-- A concrete state used in several witnesses and counterexamples:
the account `alice` exists, one key `pk1` is bound to it, and a challenge
`c1` is stored for it. -/
def stAlice : DbState :=
  { accounts := ["alice"]
    public_keys := [⟨"alice", "pk1", none⟩]
    challenges := [("alice", "c1")] }

/-- Sanity check of the base64 model against RFC 4648's test vectors. -/
theorem base64Encode_rfc_vectors :
    base64Encode [] = "" ∧
    base64Encode [102] = "Zg==" ∧
    base64Encode [102, 111] = "Zm8=" ∧
    base64Encode [102, 111, 111] = "Zm9v" ∧
    base64Encode [102, 111, 111, 98] = "Zm9vYg==" ∧
    base64Encode [102, 111, 111, 98, 97] = "Zm9vYmE=" ∧
    base64Encode [102, 111, 111, 98, 97, 114] = "Zm9vYmFy" := by
  decide

/-! ## Helper lemmas -/

/-- `authenticate` never writes to the database: its returned state is the
input state in every branch. -/
theorem authenticate_snd (st : DbState) (identifier signed_challenge : String) :
    (authenticate st identifier signed_challenge).2 = st := by
  unfold authenticate
  cases get_public_key st identifier with
  | ok pk => rfl
  | error e => cases e <;> rfl

/-- `login` never writes to the `public_keys` table. -/
theorem login_snd_public_keys (st : DbState) (identifier : String)
    (nonce : Fin 32 → Fin 256) :
    (login st identifier nonce).2.public_keys = st.public_keys := by
  unfold login
  cases get_public_key st identifier with
  | ok pk => simp [store_challenge_for_user]
  | error e => cases e <;> rfl

/-- The invariant actually maintained by the endpoints: each identifier has at
most one row in `public_keys` (identifiers of the rows are pairwise
distinct).  `register` only inserts when `is_identifier_registered` is
`false`. -/
def identsNodup (st : DbState) : Prop :=
  (st.public_keys.map PKRow.identifier).Nodup

theorem applyOp_identsNodup {st : DbState} (op : Op) (h : identsNodup st) :
    identsNodup (applyOp st op) := by
  cases op with
  | register identifier public_key =>
      simp only [applyOp, register]
      by_cases h1 : contains_identifier st identifier = true
      · by_cases h2 : is_identifier_registered st identifier = true
        · simp [h1, h2, h]
        · simp only [h1, h2, if_true, if_false, Bool.false_eq_true]
          have hnot : identifier ∉ st.public_keys.map PKRow.identifier := by
            intro hmem
            apply h2
            rcases List.mem_map.mp hmem with ⟨r, hr, hid⟩
            simp only [is_identifier_registered, List.any_eq_true]
            exact ⟨r, hr, by simp [hid]⟩
          simpa [identsNodup, link_public_key, List.nodup_append,
            List.disjoint_singleton] using And.intro h hnot
      · simp [h1, h]
  | login identifier nonce =>
      simpa [identsNodup, applyOp, login_snd_public_keys] using h
  | authenticate identifier signed_challenge =>
      simpa [identsNodup, applyOp, authenticate_snd] using h

theorem runOps_identsNodup {st : DbState} (ops : List Op) (h : identsNodup st) :
    identsNodup (runOps st ops) := by
  induction ops generalizing st with
  | nil => exact h
  | cons op ops ih => exact ih (applyOp_identsNodup op h)

/-! ## Further concrete states for witnesses and counterexamples -/

/-- The account `alice` exists but has no bound key. -/
def stUnboundAlice : DbState :=
  { accounts := ["alice"], public_keys := [], challenges := [] }

/-- The empty database: no accounts, no keys, no challenges. -/
def stEmpty : DbState :=
  { accounts := [], public_keys := [], challenges := [] }

/-! ## Claims -/

/-- C1 (code_bug evidence): in the state `stAlice` (account `alice` with
bound key `pk1` and stored challenge `c1`), `authenticate` answers with the
unconditional success response even for a signed challenge that no bound key
could have produced — the handler performs no signature verification at all,
contradicting its own doc comment (src/auth.rs:122-124) and the claim's
requirement that a non-verifying signature yields `Unauthorized`. -/
theorem authenticate_succeeds_without_signature_verification :
    (authenticate stAlice "alice" "not-a-signature-over-c1").1
      = Resp.ok "[FAKE] Authentication successful." := by decide

/-- C2 (code_bug evidence): `authenticate` never consumes the stored
challenge; replaying the very same signed challenge immediately after a
successful call succeeds again (and the state is untouched in between),
contradicting the claim that a second attempt is rejected with
`NotFound`/`Expired`. -/
theorem authenticate_replay_succeeds_again :
    (authenticate stAlice "alice" "sig-over-c1").1
      = Resp.ok "[FAKE] Authentication successful." ∧
    (authenticate (authenticate stAlice "alice" "sig-over-c1").2
        "alice" "sig-over-c1").1
      = Resp.ok "[FAKE] Authentication successful." := by decide

/-- C3 (code_bug evidence): registering a second device key for an already
bound account returns `409 Conflict` and leaves the state unchanged — no
`ConfirmationRequest` is created and no `Pending(confirmationRequestId)` is
returned, contradicting the handler's own doc comment (src/auth.rs:37-41,
"the server will send a confirmation message to every device already
registered") and the claim. -/
theorem register_second_device_conflicts_not_pending :
    (register stAlice "alice" "pk2").1
      = Resp.conflict "Identifier is already registered with a public key." ∧
    (register stAlice "alice" "pk2").2 = stAlice := by decide

/-- C4 (code_bug evidence): `authenticate` performs no write at all
(`(authenticate st i s).2 = st` for every state), so there is no atomic
consume step; in particular every interleaving of two `authenticate` calls
against the same issued challenge equals their sequential composition, and in
`stAlice` both calls succeed — "at most one succeeds" fails. -/
theorem concurrent_authenticate_both_succeed :
    (∀ st identifier signed_challenge,
      (authenticate st identifier signed_challenge).2 = st) ∧
    (authenticate stAlice "alice" "sig-by-device-A").1
      = Resp.ok "[FAKE] Authentication successful." ∧
    (authenticate (authenticate stAlice "alice" "sig-by-device-A").2
        "alice" "sig-by-device-B").1
      = Resp.ok "[FAKE] Authentication successful." := by
  exact ⟨fun st i s => authenticate_snd st i s, by decide, by decide⟩

/-- C5 counterexample: `login` returns the identical
`404 "Identifier not found."` response both when the account `alice` is
absent (`stEmpty`) and when it exists without a bound key (`stUnboundAlice`):
the two cases the claim requires to be distinguished are collapsed. -/
theorem login_collapses_unknown_and_unbound :
    (login stUnboundAlice "alice" (fun _ => 0)).1
      = Resp.notFound "Identifier not found." ∧
    (login stEmpty "alice" (fun _ => 0)).1
      = Resp.notFound "Identifier not found." ∧
    (login stUnboundAlice "alice" (fun _ => 0)).1
      = (login stEmpty "alice" (fun _ => 0)).1 := by decide

/-- C5 (amended): whenever the identifier has no row in `public_keys` —
whether or not a row for it exists in `accounts` — `login` fails with the one
response `404 "Identifier not found."`; the absent-account and
unbound-account cases are collapsed, and no distinct `UnboundAccount` error
exists. -/
theorem login_unbound_or_unknown_gives_not_found (st : DbState)
    (identifier : String) (nonce : Fin 32 → Fin 256)
    (h : ∀ r ∈ st.public_keys, r.identifier ≠ identifier) :
    (login st identifier nonce).1 = Resp.notFound "Identifier not found." := by
  have hgp : get_public_key st identifier = .error .rowNotFound := by
    unfold get_public_key
    have : st.public_keys.filter (fun r => r.identifier == identifier) = [] := by
      rw [List.filter_eq_nil_iff]
      intro r hr
      simpa using h r hr
    rw [this]
  unfold login
  rw [hgp]

/-- C5 witness: the amended theorem applied to the concrete state in which
`alice` exists but is unbound. -/
theorem login_unbound_or_unknown_gives_not_found_witness :
    (login stUnboundAlice "alice" (fun _ => 0)).1
      = Resp.notFound "Identifier not found." :=
  login_unbound_or_unknown_gives_not_found stUnboundAlice "alice" (fun _ => 0)
    (by intro r hr; simp [stUnboundAlice] at hr)

/-- C6 counterexample: in `stAlice` the pair `("alice", "pk1")` is already
bound, yet `register("alice", "pk1")` is answered with `409 Conflict`, not
with any success response — re-binding the same key is an error, not an
idempotent no-op success. -/
theorem register_rebind_same_key_is_conflict :
    (register stAlice "alice" "pk1").1
      = Resp.conflict "Identifier is already registered with a public key." := by
  decide

/-- C6 (amended): whenever the account exists and the candidate
`(identifier, publicKey)` is already bound (indeed whenever any key is bound
to the identifier), `register` returns
`409 Conflict "Identifier is already registered with a public key."` and
leaves the database unchanged. -/
theorem register_already_bound_is_conflict (st : DbState)
    (identifier public_key : String) (device_name : Option String)
    (hacc : identifier ∈ st.accounts)
    (hkey : (⟨identifier, public_key, device_name⟩ : PKRow) ∈ st.public_keys) :
    (register st identifier public_key).1
      = Resp.conflict "Identifier is already registered with a public key." ∧
    (register st identifier public_key).2 = st := by
  have h1 : contains_identifier st identifier = true := by
    simpa [contains_identifier] using hacc
  have h2 : is_identifier_registered st identifier = true := by
    simp only [is_identifier_registered, List.any_eq_true]
    exact ⟨_, hkey, by simp⟩
  simp [register, h1, h2]

/-- C6 witness: the amended theorem applied at `stAlice` with the bound pair
`("alice", "pk1")`. -/
theorem register_already_bound_is_conflict_witness :
    (register stAlice "alice" "pk1").1
      = Resp.conflict "Identifier is already registered with a public key." ∧
    (register stAlice "alice" "pk1").2 = stAlice :=
  register_already_bound_is_conflict stAlice "alice" "pk1" none
    (by simp [stAlice]) (by simp [stAlice])

/-- C7: when the account exists and has no bound key, `register` binds the
key directly (inserting the row via `link_public_key`) and returns the
success response with no confirmation step; when the account does not exist,
`register` fails with the `404 "Identifier not found. ..."` response
(`UnknownAccount`). -/
theorem register_first_device_binds_directly (st : DbState)
    (identifier public_key : String) :
    (contains_identifier st identifier = true →
      is_identifier_registered st identifier = false →
        (register st identifier public_key).1
          = Resp.ok "New public key registered successfully." ∧
        (register st identifier public_key).2
          = link_public_key st identifier public_key none) ∧
    (contains_identifier st identifier = false →
      (register st identifier public_key).1
        = Resp.notFound
          "Identifier not found. If you detect an issue, please contact your administrator.") := by
  constructor
  · intro h1 h2
    constructor <;> simp [register, h1, h2]
  · intro h1
    simp [register, h1]

/-- C7 witness: the theorem applied to the concrete unbound account `alice`
(direct bind) and to the empty database (`UnknownAccount`). -/
theorem register_first_device_binds_directly_witness :
    ((register stUnboundAlice "alice" "pk1").1
        = Resp.ok "New public key registered successfully." ∧
      (register stUnboundAlice "alice" "pk1").2
        = link_public_key stUnboundAlice "alice" "pk1" none) ∧
    (register stEmpty "alice" "pk1").1
      = Resp.notFound
        "Identifier not found. If you detect an issue, please contact your administrator." :=
  ⟨(register_first_device_binds_directly stUnboundAlice "alice" "pk1").1
      (by decide) (by decide),
    (register_first_device_binds_directly stEmpty "alice" "pk1").2 (by decide)⟩

/-- C8: whenever `login` succeeds (the public-key lookup returns a key), the
returned challenge is exactly the standard base64 encoding of the randomly
drawn nonce, and that nonce is 32 bytes long. -/
theorem login_challenge_is_base64_of_32_byte_nonce (st : DbState)
    (identifier pk : String) (nonce : Fin 32 → Fin 256)
    (h : get_public_key st identifier = .ok pk) :
    (login st identifier nonce).1
      = Resp.okChallenge (base64Encode (nonceBytes nonce)) ∧
    (nonceBytes nonce).length = 32 := by
  constructor
  · unfold login
    rw [h]
  · simp [nonceBytes]

/-- C8 witness: the theorem applied at `stAlice` with the all-zero nonce. -/
theorem login_challenge_is_base64_of_32_byte_nonce_witness :
    (login stAlice "alice" (fun _ => 0)).1
      = Resp.okChallenge (base64Encode (nonceBytes (fun _ => 0))) ∧
    (nonceBytes (fun _ => 0)).length = 32 :=
  login_challenge_is_base64_of_32_byte_nonce stAlice "alice" "pk1"
    (fun _ => 0) rfl

/-- C9: starting from any database whose `public_keys` table is empty, every
state reachable through a sequence of public endpoint calls (`register`,
`login`, `authenticate`) stores no duplicate `(identifier, public_key)`
pair.  (The endpoints in fact maintain the stronger invariant `identsNodup`:
at most one key row per identifier, because `register` inserts only when
`is_identifier_registered` is false — not via any schema uniqueness
constraint, which `create_public_keys_table` does not declare.) -/
theorem reachable_states_have_no_duplicate_key_pairs (init : DbState)
    (ops : List Op) (h : init.public_keys = []) :
    ((runOps init ops).public_keys.map
      (fun r => (r.identifier, r.public_key))).Nodup := by
  have hn : identsNodup (runOps init ops) :=
    runOps_identsNodup ops (by simp [identsNodup, h])
  have hmap : (runOps init ops).public_keys.map PKRow.identifier
      = ((runOps init ops).public_keys.map
          (fun r => (r.identifier, r.public_key))).map Prod.fst := by
    rw [List.map_map]
    rfl
  have hn' : ((runOps init ops).public_keys.map PKRow.identifier).Nodup := hn
  rw [hmap] at hn'
  exact hn'.of_map

/-- A concrete run used by the C9 witness: `alice` and `bob` are provisioned,
then the endpoints are exercised (two binds, a duplicate-bind attempt, a
login, an authenticate). -/
def opsWitness : List Op :=
  [Op.register "alice" "pk1",
   Op.login "alice" (fun _ => 0),
   Op.authenticate "alice" "sig-over-c1",
   Op.register "alice" "pk2",
   Op.register "bob" "pk1"]

/-- C9 witness: the theorem applied to a concrete provisioned database and
the concrete call sequence `opsWitness`. -/
theorem reachable_states_have_no_duplicate_key_pairs_witness :
    ((runOps { accounts := ["alice", "bob"], public_keys := [], challenges := [] }
        opsWitness).public_keys.map
      (fun r => (r.identifier, r.public_key))).Nodup :=
  reachable_states_have_no_duplicate_key_pairs
    { accounts := ["alice", "bob"], public_keys := [], challenges := [] }
    opsWitness rfl

/-- C10: `authenticate` reads `signed_challenge` from the request but never
uses it — when the public-key lookup for the identifier succeeds, two calls
differing only in the signed challenge produce identical responses (and
identical states): its outcome does not depend on the signed challenge. -/
theorem authenticate_independent_of_signed_challenge (st : DbState)
    (identifier sc1 sc2 pk : String)
    (h : get_public_key st identifier = .ok pk) :
    authenticate st identifier sc1 = authenticate st identifier sc2 := rfl

/-- C10 witness: the theorem applied at `stAlice` to a well-formed and a
garbage signed challenge. -/
theorem authenticate_independent_of_signed_challenge_witness :
    authenticate stAlice "alice" "sig-over-c1"
      = authenticate stAlice "alice" "garbage" :=
  authenticate_independent_of_signed_challenge stAlice "alice"
    "sig-over-c1" "garbage" "pk1" rfl
